import Mathlib

/-!
Verification development for the KithLy gift-delivery protocol core
(C++ sources under `02_core_logic` and `02_engine`).

The C++ code is shallowly embedded: each relevant C++ function becomes an
executable Lean definition over explicit state (the `Global_Gifts` table,
the idempotency guard's in-memory maps, wall-clock instants as integer
seconds).  Database effects are modelled by returning the updated table
together with the C++ return value.
-/

namespace Kithly

/-! ## Status codes (`constants.h`, plus the file-local constants of
`orchestrator.cpp` and the `OrderStatus` enum of `02_engine`). -/

def Status.INITIATED : Int := 100
def Status.AGENT_INITIATED : Int := 150
def Status.FUNDS_LOCKED : Int := 200
def Status.SETTLED : Int := 250
def Status.FULFILLING : Int := 300
def Status.COMPLETED : Int := 400

def FORCE_CALL_PENDING : Int := 305
def REROUTING : Int := 315
def HELD_FOR_REVIEW : Int := 800
def KEY_VERIFIED : Int := 350
def EXPIRED : Int := 900
def ALT_FOUND : Int := 106

def FORCE_CALL_THRESHOLD_MINS : Int := 5
def REROUTE_THRESHOLD_MINS : Int := 10

/-! ## The `Global_Gifts` table and `update_status` (`db_connector.cpp`).

A row keeps the columns relevant to the claims: `tx_id`, `status_code` and
the optimistic-concurrency `version` column.  The connector holds a global
`PGconn*` which may be null (`connected = false`); an executed `UPDATE`
statement may itself fail (`stmt_fails = true` models
`PQresultStatus(res) != PGRES_COMMAND_OK`). -/

structure DBRow where
  tx_id : String
  status_code : Int
  version : Nat
deriving Repr, DecidableEq

structure DB where
  connected : Bool
  stmt_fails : Bool
  rows : List DBRow
deriving Repr, DecidableEq

/-- `update_status(uuid, new_status)` of `db_connector.cpp`: returns `false`
when no connection is open, when the `UPDATE` statement fails, or when the
statement `UPDATE Global_Gifts SET status_code = $1 WHERE tx_id = $2`
affects zero rows; otherwise it overwrites `status_code` on every row whose
`tx_id` matches and returns `true`.  No other column is touched. -/
def update_status (db : DB) (uuid : String) (new_status : Int) : Bool × DB :=
  if !db.connected then
    (false, db)
  else if db.stmt_fails then
    (false, db)
  else
    let affected := db.rows.countP (fun r => r.tx_id == uuid)
    if affected == 0 then
      (false, db)
    else
      (true,
       { db with
         rows := db.rows.map (fun r =>
           if r.tx_id == uuid then { r with status_code := new_status } else r) })

/-! ## `orchestrator.cpp` (02_core_logic): escalation ladder, ZRA interlock,
escrow expiry, handshake tokens.

Wall-clock instants (`std::chrono::system_clock::time_point`) are embedded
as integer numbers of seconds; `duration_cast<minutes>` truncates toward
zero, i.e. `Int.tdiv _ 60`. -/

structure Transaction where
  tx_id : String
  status_code : Int
  status_changed_at : Int
  shop_id : String
deriving Repr, DecidableEq

/-- `get_elapsed_minutes`: whole minutes (truncated toward zero) between
`now` and `tx.status_changed_at`. -/
def get_elapsed_minutes (now : Int) (tx : Transaction) : Int :=
  (now - tx.status_changed_at).tdiv 60

/-- `check_for_escalation`: 305 when a 300 row has sat for more than 5 whole
minutes, 315 when a 305 row has sat for more than 10 whole minutes,
otherwise 0. -/
def check_for_escalation (now : Int) (tx : Transaction) : Int :=
  let elapsed_mins := get_elapsed_minutes now tx
  if tx.status_code == Status.FULFILLING && elapsed_mins > FORCE_CALL_THRESHOLD_MINS then
    FORCE_CALL_PENDING
  else if tx.status_code == FORCE_CALL_PENDING && elapsed_mins > REROUTE_THRESHOLD_MINS then
    REROUTING
  else
    0

/-- `process_escalation`: applies `check_for_escalation` and, when it fires
and `update_status` succeeds, records the new status and `status_changed_at`
on the in-memory transaction. -/
def process_escalation (db : DB) (now : Int) (tx : Transaction) :
    Bool × DB × Transaction :=
  let new_status := check_for_escalation now tx
  if new_status == 0 then
    (false, db, tx)
  else
    match update_status db tx.tx_id new_status with
    | (true, db1) =>
        (true, db1, { tx with status_code := new_status, status_changed_at := now })
    | (false, db1) => (false, db1, tx)

/-- `can_complete_delivery`: the ZRA fiscalisation interlock releases only
for result codes `"000"` and `"001"`. -/
def can_complete_delivery (zra_result_code : String) : Bool :=
  zra_result_code == "000" || zra_result_code == "001"

/-- `complete_delivery`: on interlock failure updates the row to 800
(`HELD_FOR_REVIEW`, return value of that update ignored) and returns
`false`; on interlock release returns the success of the update to 400. -/
def complete_delivery (db : DB) (tx_id : String) (zra_result_code : String) :
    Bool × DB :=
  if !(can_complete_delivery zra_result_code) then
    let r := update_status db tx_id HELD_FOR_REVIEW
    (false, r.snd)
  else
    match update_status db tx_id Status.COMPLETED with
    | (true, db1) => (true, db1)
    | (false, db1) => (false, db1)

structure EscrowTransaction where
  tx_id : String
  status_code : Int
  expiry_timestamp : Int
  collection_token : String
  stripe_payment_ref : String
  is_settled : Bool
deriving Repr, DecidableEq

/-- `is_escrow_expired`: status is 200 (`FUNDS_LOCKED`) and `now()` is
strictly past `expiry_timestamp`. -/
def is_escrow_expired (now : Int) (tx : EscrowTransaction) : Bool :=
  if tx.status_code != Status.FUNDS_LOCKED then
    false
  else
    now > tx.expiry_timestamp

/-- `process_expired_escrow`: when the escrow is expired and the update to
900 succeeds, marks the in-memory transaction expired and triggers the
Stripe refund (modelled as the emitted `(tx_id, stripe_payment_ref)` pair);
otherwise returns `false` leaving everything unchanged. -/
def process_expired_escrow (db : DB) (now : Int) (tx : EscrowTransaction) :
    Bool × DB × EscrowTransaction × Option (String × String) :=
  if !(is_escrow_expired now tx) then
    (false, db, tx, none)
  else
    match update_status db tx.tx_id EXPIRED with
    | (true, db1) =>
        (true, db1, { tx with status_code := EXPIRED },
         some (tx.tx_id, tx.stripe_payment_ref))
    | (false, db1) => (false, db1, tx, none)

/-! ## `generate_handshake_token`.

The Mersenne-twister draws are embedded as an oracle `r : Fin 8 → Fin 32`:
`uniform_int_distribution<>(0, charset.size() - 1)` yields exactly an index
into the 32-character alphabet for each of the eight drawn characters. -/

def charset : List Char := "ABCDEFGHJKLMNPQRSTUVWXYZ23456789".data

/-- Character of the token alphabet selected by one RNG draw. -/
def tokenChar (i : Fin 32) : Char :=
  charset.get (Fin.cast (by decide) i)

/-- `generate_handshake_token`: four alphabet characters, a hyphen, four
alphabet characters, each drawn by the RNG oracle `r`. -/
def generate_handshake_token (r : Fin 8 → Fin 32) : String :=
  ⟨[tokenChar (r 0), tokenChar (r 1), tokenChar (r 2), tokenChar (r 3), '-',
    tokenChar (r 4), tokenChar (r 5), tokenChar (r 6), tokenChar (r 7)]⟩

/-- Version of the row with the given `tx_id`, when present (first match). -/
def rowVersion (db : DB) (uuid : String) : Option Nat :=
  (db.rows.find? (fun r => r.tx_id == uuid)).map DBRow.version

/-- Status of the row with the given `tx_id`, when present (first match). -/
def rowStatus (db : DB) (uuid : String) : Option Int :=
  (db.rows.find? (fun r => r.tx_id == uuid)).map DBRow.status_code

end Kithly

namespace kithly
namespace idempotency

/-! ## `idempotency/guard.cpp`.

The guard's two in-memory `unordered_map`s are embedded as association
lists with unique keys (insertion overwrites, erasure removes the key).
`std::chrono::steady_clock` instants are integer seconds.  The repository
lookup `find_by_idempotency_key` is an oracle
`repo : String → Except String (Option GiftTransaction)`: a failed
`Result`, a found row, or no row. -/

structure GiftTransaction where
  tx_id : String
  status_code : Int
deriving Repr, DecidableEq, Inhabited

/-- `config::IDEMPOTENCY_WINDOW_HOURS` (24 h) as seconds. -/
def CACHE_TTL : Int := 24 * 3600

/-- `RESERVATION_TTL`: 30 seconds. -/
def RESERVATION_TTL : Int := 30

structure CacheEntry where
  transaction : GiftTransaction
  cached_at : Int
deriving Repr, DecidableEq

structure GuardState where
  cache : List (String × CacheEntry)
  reservations : List (String × Int)
deriving Repr, DecidableEq

structure CheckResult where
  is_duplicate : Bool
  existing_transaction : Option GiftTransaction
deriving Repr, DecidableEq

/-- `cache_transaction`: `cache_[key] = {tx, steady_clock::now()}` —
overwrite-or-insert. -/
def cache_transaction (st : GuardState) (key : String) (tx : GiftTransaction)
    (now : Int) : GuardState :=
  { st with
    cache := (key, ⟨tx, now⟩) :: st.cache.filter (fun p => p.fst ≠ key) }

/-- `IdempotencyGuard::check`: consult the in-memory cache first (hit counts
only while younger than `CACHE_TTL`), then fall through to
`find_by_idempotency_key`, caching a found row. -/
def check (now : Int) (repo : String → Except String (Option GiftTransaction))
    (st : GuardState) (key : String) :
    Except String CheckResult × GuardState :=
  let hot : Option GiftTransaction :=
    match st.cache.lookup key with
    | some e => if now - e.cached_at < CACHE_TTL then some e.transaction else none
    | none => none
  match hot with
  | some tx => (Except.ok ⟨true, some tx⟩, st)
  | none =>
    match repo key with
    | Except.error e => (Except.error e, st)
    | Except.ok (some tx) => (Except.ok ⟨true, some tx⟩, cache_transaction st key tx now)
    | Except.ok none => (Except.ok ⟨false, none⟩, st)

/-- `cleanup_expired_reservations`: erase every entry strictly older than
`RESERVATION_TTL`. -/
def cleanup_expired_reservations (now : Int) (res : List (String × Int)) :
    List (String × Int) :=
  res.filter (fun p => now - p.snd ≤ RESERVATION_TTL)

/-- `IdempotencyGuard::reserve`: fail whenever an entry for the key exists
(the age of that entry is not consulted); otherwise insert the key with the
current instant and then garbage-collect expired entries. -/
def reserve (now : Int) (st : GuardState) (key : String) :
    Except String Bool × GuardState :=
  if (st.reservations.lookup key).isSome then
    (Except.error "Key already reserved - concurrent request in progress", st)
  else
    let res1 := (key, now) :: st.reservations
    (Except.ok true,
     { st with reservations := cleanup_expired_reservations now res1 })

/-- `IdempotencyGuard::release`: drop the reservation entry for the key. -/
def release (st : GuardState) (key : String) : GuardState :=
  { st with reservations := st.reservations.filter (fun p => p.fst ≠ key) }

/-- `IdempotencyGuard::commit`: drop the reservation and cache the
transaction under the key. -/
def commit (now : Int) (st : GuardState) (key : String)
    (tx : GiftTransaction) : GuardState :=
  cache_transaction (release st key) key tx now

/-- Outcome of one invocation of the `create_func` callback inside
`with_idempotency`: a successful `Result`, a failed `Result`, or a thrown
exception (caught and turned into a failed `Result`). -/
inductive CreatorOutcome where
  | ok (tx : GiftTransaction)
  | err (e : String)
  | exn (e : String)
deriving Repr, DecidableEq

/-- `with_idempotency`: check → (on duplicate, return the existing snapshot)
→ reserve → run the creator under a `ReservationGuard` that commits on a
successful `Result` and releases (via its destructor) on a failed `Result`
or a thrown exception. -/
def with_idempotency (now : Int)
    (repo : String → Except String (Option GiftTransaction))
    (st : GuardState) (key : String) (creator : CreatorOutcome) :
    Except String GiftTransaction × GuardState :=
  match check now repo st key with
  | (Except.error e, st1) => (Except.error e, st1)
  | (Except.ok res, st1) =>
    if res.is_duplicate then
      (Except.ok res.existing_transaction.get!, st1)
    else
      match reserve now st1 key with
      | (Except.error e, st2) => (Except.error e, st2)
      | (Except.ok _, st2) =>
        match creator with
        | CreatorOutcome.ok tx => (Except.ok tx, commit now st2 key tx)
        | CreatorOutcome.err e => (Except.error e, release st2 key)
        | CreatorOutcome.exn e => (Except.error e, release st2 key)

end idempotency
end kithly

namespace kithly
namespace engine

/-! ## `02_engine/src/orchestrator.cpp`: the re-routing engine.

The proximity query runs over the `Shops` table; PostGIS computes each
shop's geography distance to the recipient point.  That distance function
is external to the repository, so a table row here carries, as data, the
`distance_km` value PostGIS would return for the order's recipient
(`ST_Distance(...) / 1000.0`), as an exact rational.  `ST_DWithin(a, b, m)`
holds exactly when the distance is at most `m` metres. -/

structure ShopRow where
  shop_id : String
  name : String
  category_id : String
  admin_approval_status : String
  is_verified : Bool
  performance_score : ℚ
  distance_km : ℚ
deriving Repr, DecidableEq

structure Order where
  tx_id : String
  shop_id : String
  category_id : String
  status_code : Int
  auto_reroute : Bool
deriving Repr, DecidableEq

structure RerouteResult where
  found : Bool
  alternative_shop_id : String
  shop_name : String
  distance_diff_km : ℚ
deriving Repr, DecidableEq

/-- `SEARCH_RADIUS_KM * 1000`, the metre radius bound to `$5`. -/
def SEARCH_RADIUS_M : ℚ := 5 * 1000

/-- The `WHERE` clause of `build_proximity_query`: same category, not the
declining shop, approved, verified, within 5 km. -/
def candidate (order : Order) (s : ShopRow) : Bool :=
  (s.category_id == order.category_id)
    && (s.shop_id != order.shop_id)
    && (s.admin_approval_status == "approved")
    && s.is_verified
    && decide (s.distance_km * 1000 ≤ SEARCH_RADIUS_M)

/-- `ORDER BY s.performance_score DESC, distance_km ASC`: `a` is ranked
strictly before `b`. -/
def rankedBefore (a b : ShopRow) : Bool :=
  decide (b.performance_score < a.performance_score)
    || ((a.performance_score == b.performance_score)
        && decide (a.distance_km < b.distance_km))

/-- One accumulation step of the `LIMIT 1` selection over the ordered
result set: keep the row no later row is ranked strictly before. -/
def sqlStep (acc : Option ShopRow) (s : ShopRow) : Option ShopRow :=
  match acc with
  | none => some s
  | some b => if rankedBefore s b then some s else some b

/-- `LIMIT 1` on the ordered result set: a row no other candidate is ranked
strictly before (the earliest such row on full ties). -/
def sqlBest (l : List ShopRow) : Option ShopRow :=
  l.foldl sqlStep none

/-- `ReroutingEngine::find_alternative`: run the proximity query and fill a
`RerouteResult`; on a hit, `distance_diff_km = new_distance −
original_distance_km`. -/
def find_alternative (shops : List ShopRow) (order : Order)
    (original_distance_km : ℚ) : RerouteResult :=
  match sqlBest (shops.filter (candidate order)) with
  | none => ⟨false, "", "", 0⟩
  | some s => ⟨true, s.shop_id, s.name, s.distance_km - original_distance_km⟩

/-- Fixed six-decimal rendering of a non-negative rational: the `"%f"`
conversion `std::to_string(double)` performs, with round-to-nearest on the
seventh decimal. -/
def fixed6 (q : ℚ) : String :=
  let n : ℤ := round (q * 1000000)
  let fp := toString (n % 1000000)
  toString (n / 1000000) ++ "." ++ String.mk (List.replicate (6 - fp.length) '0') ++ fp

/-- `std::to_string` on a `double`: sign, then six fixed decimals of the
magnitude. -/
def to_string_double (d : ℚ) : String :=
  if d < 0 then "-" ++ fixed6 (-d) else fixed6 d

/-- The string stored in `re_route_distance_diff` by
`update_order_reroute`: `(diff >= 0 ? "+" : "") + std::to_string(diff) +
"km"`. -/
def format_distance_diff (d : ℚ) : String :=
  (if 0 ≤ d then "+" else "") ++ to_string_double d ++ "km"

/-- Modelled from the spec's words, for comparison only (claim C6:
"re_route_distance_diff = new_distance − original_distance (signed, km, one
decimal)"): the signed one-decimal rendering of the difference. -/
def spec_one_decimal_diff (d : ℚ) : String :=
  let q := |d|
  let n : ℤ := round (q * 10)
  (if 0 ≤ d then "+" else "-") ++ toString (n / 10) ++ "." ++ toString (n % 10) ++ "km"

/-- A `Global_Gifts` row as touched by `update_order_reroute`. -/
structure OrderRow where
  tx_id : String
  status_code : Int
  alternative_shop_id : String
  re_route_distance_diff : String
deriving Repr, DecidableEq

/-- `ReroutingEngine::update_order_reroute` (committed path): every row
whose `tx_id` matches gets `status_code = 106`, the alternative shop id,
and the formatted distance diff. -/
def update_order_reroute (tbl : List OrderRow) (tx_id : String)
    (result : RerouteResult) : List OrderRow :=
  tbl.map (fun r =>
    if r.tx_id == tx_id then
      { r with
        status_code := 106,
        alternative_shop_id := result.alternative_shop_id,
        re_route_distance_diff := format_distance_diff result.distance_diff_km }
    else r)

end engine
end kithly

/-! ## Spec-side propositions, for the claims the code deviates from.

Each is a direct rendering of the claim's words over the embedded code,
kept separate from the code model so the two can be compared. -/

namespace Kithly

/-- Rendering of claim C1's words: the version column strictly increases on
every committed `update_status` mutation. -/
def spec_version_increases_on_commit : Prop :=
  ∀ (db : DB) (uuid : String) (s : Int) (v v1 : Nat),
    (update_status db uuid s).fst = true →
    rowVersion db uuid = some v →
    rowVersion (update_status db uuid s).snd uuid = some v1 →
    v < v1

end Kithly

namespace kithly
namespace idempotency

/-- Rendering of claim C7's words: a reservation entry strictly older than
`RESERVATION_TTL` does not block admission — whenever every entry for the
key is expired, `reserve` succeeds. -/
def spec_reserve_admits_expired : Prop :=
  ∀ (now : Int) (st : GuardState) (key : String),
    (∀ t, st.reservations.lookup key = some t → now - t > RESERVATION_TTL) →
    ∃ st1, reserve now st key = (Except.ok true, st1)

end idempotency
end kithly

namespace kithly
namespace engine

/-- Rendering of claim C6's words: on a declined auto-reroute order with at
least one candidate, the engine finds an alternative and records
`re_route_distance_diff` as the signed one-decimal rendering of
`new_distance − original_distance`. -/
def spec_reroute_one_decimal : Prop :=
  ∀ (shops : List ShopRow) (order : Order) (orig : ℚ) (tbl : List OrderRow),
    (∃ s ∈ shops, candidate order s = true) →
    order.status_code = 910 →
    order.auto_reroute = true →
    (find_alternative shops order orig).found = true ∧
    update_order_reroute tbl order.tx_id (find_alternative shops order orig) =
      tbl.map (fun r =>
        if r.tx_id == order.tx_id then
          { r with
            status_code := 106,
            alternative_shop_id := (find_alternative shops order orig).alternative_shop_id,
            re_route_distance_diff :=
              spec_one_decimal_diff (find_alternative shops order orig).distance_diff_km }
        else r)

/-- Fixture: the approved, verified flower shop 1.2 km away with score 0.9. -/
def S2row : ShopRow := ⟨"S2", "Shop Two", "flowers", "approved", true, 9/10, 12/10⟩

/-- Fixture: the approved, verified flower shop 3.4 km away with score 0.95. -/
def S3row : ShopRow := ⟨"S3", "Shop Three", "flowers", "approved", true, 19/20, 34/10⟩

/-- Fixture: the approved, verified flower shop 6.1 km away with score 1.0. -/
def S4row : ShopRow := ⟨"S4", "Shop Four", "flowers", "approved", true, 1, 61/10⟩

/-- Fixture: a declined auto-reroute order originally at shop S1. -/
def exOrder : Order := ⟨"T1", "S1", "flowers", 910, true⟩

end engine
end kithly

/-! # Theorems -/

namespace Kithly

/-- Success characterisation of `update_status`: true exactly when connected,
the statement succeeds, and some row carries the `tx_id`. -/
theorem update_status_fst_iff (db : DB) (uuid : String) (s : Int) :
    (update_status db uuid s).fst = true ↔
      db.connected = true ∧ db.stmt_fails = false ∧ ∃ r ∈ db.rows, r.tx_id = uuid := by
  cases hc : db.connected with
  | false => simp [update_status, hc]
  | true =>
    cases hs : db.stmt_fails with
    | true => simp [update_status, hc, hs]
    | false =>
      by_cases h0 : db.rows.countP (fun r => r.tx_id == uuid) = 0
      · have hnone : ∀ r ∈ db.rows, ¬ r.tx_id = uuid := by
          intro r hr
          have := (List.countP_eq_zero.mp h0) r hr
          simpa using this
        simp only [update_status, hc, hs]
        simp [h0]
        intro r hr
        exact hnone r hr
      · have hsome : ∃ r ∈ db.rows, r.tx_id = uuid := by
          have hpos : 0 < db.rows.countP (fun r => r.tx_id == uuid) :=
            Nat.pos_of_ne_zero h0
          obtain ⟨r, hr, hp⟩ := List.countP_pos_iff.mp hpos
          exact ⟨r, hr, by simpa using hp⟩
        simp only [update_status, hc, hs]
        simp [h0]
        exact hsome

/-- On success, `update_status` rewrites exactly the matching rows' status. -/
theorem update_status_snd_of_true (db : DB) (uuid : String) (s : Int)
    (h : (update_status db uuid s).fst = true) :
    (update_status db uuid s).snd.rows =
      db.rows.map (fun r => if r.tx_id = uuid then { r with status_code := s } else r) := by
  have hfun :
      (fun r : DBRow => if r.tx_id == uuid then { r with status_code := s } else r)
        = (fun r : DBRow => if r.tx_id = uuid then { r with status_code := s } else r) := by
    funext r
    by_cases hr : r.tx_id = uuid <;> simp [hr]
  rcases update_status_fst_iff db uuid s |>.mp h with ⟨hc, hs, hex⟩
  have h0 : ¬ db.rows.countP (fun r => r.tx_id == uuid) = 0 := by
    intro h0
    obtain ⟨r, hr, hp⟩ := hex
    have := (List.countP_eq_zero.mp h0) r hr
    simp [hp] at this
  simp only [update_status, hc, hs]
  simp [h0, hfun]

/-- On failure, `update_status` leaves the database untouched. -/
theorem update_status_snd_of_false (db : DB) (uuid : String) (s : Int)
    (h : (update_status db uuid s).fst = false) :
    (update_status db uuid s).snd = db := by
  cases hc : db.connected with
  | false => simp [update_status, hc]
  | true =>
    cases hs : db.stmt_fails with
    | true => simp [update_status, hc, hs]
    | false =>
      by_cases h0 : db.rows.countP (fun r => r.tx_id == uuid) = 0
      · simp [update_status, hc, hs, h0]
      · exfalso
        simp [update_status, hc, hs, h0] at h

end Kithly


namespace Kithly

/-- The per-row rewrite of `update_status` keeps `tx_id` unchanged. -/
theorem update_row_tx_id (a : DBRow) (uuid : String) (s : Int) :
    (if a.tx_id = uuid then { a with status_code := s } else a).tx_id = a.tx_id := by
  by_cases h : a.tx_id = uuid <;> simp [h]

/-- The per-row rewrite of `update_status` keeps `version` unchanged. -/
theorem update_row_version (a : DBRow) (uuid : String) (s : Int) :
    (if a.tx_id = uuid then { a with status_code := s } else a).version = a.version := by
  by_cases h : a.tx_id = uuid <;> simp [h]

/-- `find?` by `tx_id` commutes with the status rewrite, projecting to
`version`. -/
theorem find_map_version (l : List DBRow) (uuid u : String) (s : Int) :
    ((l.map (fun r => if r.tx_id = uuid then { r with status_code := s } else r)).find?
        (fun r => r.tx_id == u)).map DBRow.version
      = (l.find? (fun r => r.tx_id == u)).map DBRow.version := by
  induction l with
  | nil => rfl
  | cons a t ih =>
    simp only [List.map_cons, List.find?]
    rw [update_row_tx_id]
    by_cases hu : a.tx_id = u
    · have hbe : (a.tx_id == u) = true := by simpa using hu
      rw [hbe]
      simp [update_row_version]
    · have hbe : (a.tx_id == u) = false := by simpa using hu
      rw [hbe]
      exact ih

/-- On the searched key itself, `find?` after the status rewrite yields the
new status whenever it finds anything. -/
theorem find_map_status (l : List DBRow) (uuid : String) (s : Int) :
    ((l.map (fun r => if r.tx_id = uuid then { r with status_code := s } else r)).find?
        (fun r => r.tx_id == uuid)).map DBRow.status_code
      = (l.find? (fun r => r.tx_id == uuid)).map (fun _ => s) := by
  induction l with
  | nil => rfl
  | cons a t ih =>
    simp only [List.map_cons, List.find?]
    rw [update_row_tx_id]
    by_cases hu : a.tx_id = uuid
    · have hbe : (a.tx_id == uuid) = true := by simpa using hu
      rw [hbe]
      simp [hu]
    · have hbe : (a.tx_id == uuid) = false := by simpa using hu
      rw [hbe]
      exact ih

/-- The status rewrite of `update_status` never touches `tx_id` or
`version`, so `rowVersion` is unchanged at every key. -/
theorem rowVersion_update_status (db : DB) (uuid : String) (s : Int) (u : String) :
    rowVersion (update_status db uuid s).snd u = rowVersion db u := by
  rcases hb : (update_status db uuid s).fst with _ | _
  · rw [update_status_snd_of_false db uuid s hb]
  · rw [rowVersion, update_status_snd_of_true db uuid s hb]
    exact find_map_version db.rows uuid u s

/-- After a successful `update_status`, the first row carrying the key holds
the new status. -/
theorem rowStatus_update_status_of_true (db : DB) (uuid : String) (s : Int)
    (h : (update_status db uuid s).fst = true) :
    rowStatus (update_status db uuid s).snd uuid = some s := by
  rcases (update_status_fst_iff db uuid s).mp h with ⟨_, _, hex⟩
  rw [rowStatus, update_status_snd_of_true db uuid s h, find_map_status]
  have hsome : (db.rows.find? (fun r => r.tx_id == uuid)).isSome := by
    rw [List.find?_isSome]
    rcases hex with ⟨r, hr, hru⟩
    exact ⟨r, hr, by simpa using hru⟩
  rcases ho : db.rows.find? (fun r => r.tx_id == uuid) with _ | r
  · rw [ho] at hsome
    simp at hsome
  · rw [ho]
    rfl

end Kithly

namespace Kithly

/-- C10: the repository operation `update_status(uuid, new_status)` enforces
neither the transition table nor any version check — it overwrites
`status_code` with whatever integer is supplied on every row whose `tx_id`
matches and returns `true`; it returns `false` only when no connection is
open, the `UPDATE` statement itself fails, or no row has the given `tx_id`;
on failure the table is untouched. -/
theorem C10_update_status_unguarded (db : DB) (uuid : String) (s : Int) :
    ((update_status db uuid s).fst = true ↔
       db.connected = true ∧ db.stmt_fails = false ∧ ∃ r ∈ db.rows, r.tx_id = uuid)
    ∧ ((update_status db uuid s).fst = true →
        (update_status db uuid s).snd.rows =
          db.rows.map (fun r => if r.tx_id = uuid then { r with status_code := s } else r))
    ∧ ((update_status db uuid s).fst = false → (update_status db uuid s).snd = db) :=
  ⟨update_status_fst_iff db uuid s, update_status_snd_of_true db uuid s,
   update_status_snd_of_false db uuid s⟩

/-- C10 witness: on a one-row table the update succeeds for the stored
`tx_id`, whatever status is supplied. -/
theorem C10_update_status_unguarded_witness :
    (update_status ⟨true, false, [⟨"T1", 100, 5⟩]⟩ "T1" 777).fst = true :=
  (C10_update_status_unguarded ⟨true, false, [⟨"T1", 100, 5⟩]⟩ "T1" 777).1.mpr
    ⟨rfl, rfl, ⟨"T1", 100, 5⟩, by decide, rfl⟩

/-- C1 counterexample: `update_status` commits a mutation whose version does
not increase — on the row `("T1", 100, version 5)` the update to 200
succeeds yet the stored version stays 5 — refuting the claim that the
version column strictly increases on every committed mutation. -/
theorem C1_counterexample_version_not_increasing :
    ¬ spec_version_increases_on_commit := by
  intro h
  have h5 := h ⟨true, false, [⟨"T1", 100, 5⟩]⟩ "T1" 200 5 5
    (by decide) (by decide) (by decide)
  exact absurd h5 (lt_irrefl 5)

/-- C1 (amended): `update_status(tx_id, new_status)` matches rows on
`tx_id` alone — there is no version predicate, no version increment and no
state-timestamp write: it fails exactly when no connection is open, the
statement fails, or zero rows are affected; it leaves `version` unchanged
at every key; and on success the matched row holds the new status. -/
theorem C1_update_status_no_version_discipline (db : DB) (uuid : String) (s : Int) :
    ((update_status db uuid s).fst = false ↔
       db.connected = false ∨ db.stmt_fails = true ∨ ∀ r ∈ db.rows, r.tx_id ≠ uuid)
    ∧ (∀ u, rowVersion (update_status db uuid s).snd u = rowVersion db u)
    ∧ ((update_status db uuid s).fst = true →
        rowStatus (update_status db uuid s).snd uuid = some s) := by
  refine ⟨?_, fun u => rowVersion_update_status db uuid s u,
    rowStatus_update_status_of_true db uuid s⟩
  have hbool : (update_status db uuid s).fst = false ↔
      ¬ ((update_status db uuid s).fst = true) := by
    cases (update_status db uuid s).fst <;> simp
  rw [hbool, update_status_fst_iff]
  constructor
  · intro hn
    by_cases hc : db.connected = true
    · by_cases hs : db.stmt_fails = false
      · right; right
        intro r hr hru
        exact hn ⟨hc, hs, r, hr, hru⟩
      · right; left
        cases hb : db.stmt_fails with
        | false => exact absurd hb hs
        | true => rfl
    · left
      cases hb : db.connected with
      | false => rfl
      | true => exact absurd hb hc
  · rintro (h1 | h2 | h3) ⟨hc, hs, r, hr, hru⟩
    · rw [h1] at hc
      exact Bool.noConfusion hc
    · rw [h2] at hs
      exact Bool.noConfusion hs
    · exact h3 r hr hru

/-- C1 witness (amended claim): the committed mutation on the concrete row
leaves its version at 5. -/
theorem C1_update_status_no_version_discipline_witness :
    rowVersion (update_status ⟨true, false, [⟨"T1", 100, 5⟩]⟩ "T1" 200).snd "T1" = some 5 :=
  ((C1_update_status_no_version_discipline
      ⟨true, false, [⟨"T1", 100, 5⟩]⟩ "T1" 200).2.1 "T1").trans (by decide)

end Kithly

/-- Truncated division by 60 exceeds a non-negative bound exactly when the
dividend reaches the next full multiple of 60. -/
theorem tdiv_sixty_gt_iff (x k : Int) (hk : 0 ≤ k) :
    x.tdiv 60 > k ↔ 60 * (k + 1) ≤ x := by
  rcases le_or_lt 0 x with h | h
  · rw [Int.tdiv_eq_ediv h (by norm_num)]
    omega
  · have h2 : (-x).tdiv 60 = (-x) / 60 := Int.tdiv_eq_ediv (by omega) (by norm_num)
    have h4 := Int.neg_tdiv x 60
    omega

namespace Kithly

/-- `check_for_escalation` yields 305 exactly on a 300 row at least 360
seconds (i.e. strictly more than 5 whole minutes) old. -/
theorem check_eq_305_iff (now : Int) (tx : Transaction) :
    check_for_escalation now tx = 305 ↔
      tx.status_code = 300 ∧ 360 ≤ now - tx.status_changed_at := by
  have hm5 : ((now - tx.status_changed_at).tdiv 60 > 5) ↔
      360 ≤ now - tx.status_changed_at := by
    have h := tdiv_sixty_gt_iff (now - tx.status_changed_at) 5 (by norm_num)
    norm_num at h
    exact h
  simp only [check_for_escalation, get_elapsed_minutes, Status.FULFILLING,
    FORCE_CALL_PENDING, REROUTING, FORCE_CALL_THRESHOLD_MINS,
    REROUTE_THRESHOLD_MINS]
  by_cases h3 : tx.status_code = 300
  · by_cases hgt : (now - tx.status_changed_at).tdiv 60 > 5
    · simp [h3, hgt, hm5.mp hgt]
    · simp [h3, hgt, ← hm5]
  · by_cases h30 : tx.status_code = 305 <;>
      by_cases hgt10 : (now - tx.status_changed_at).tdiv 60 > 10 <;>
      simp [h3, h30, hgt10]

/-- `check_for_escalation` yields 315 exactly on a 305 row at least 660
seconds (i.e. strictly more than 10 whole minutes) old. -/
theorem check_eq_315_iff (now : Int) (tx : Transaction) :
    check_for_escalation now tx = 315 ↔
      tx.status_code = 305 ∧ 660 ≤ now - tx.status_changed_at := by
  have hm10 : ((now - tx.status_changed_at).tdiv 60 > 10) ↔
      660 ≤ now - tx.status_changed_at := by
    have h := tdiv_sixty_gt_iff (now - tx.status_changed_at) 10 (by norm_num)
    norm_num at h
    exact h
  simp only [check_for_escalation, get_elapsed_minutes, Status.FULFILLING,
    FORCE_CALL_PENDING, REROUTING, FORCE_CALL_THRESHOLD_MINS,
    REROUTE_THRESHOLD_MINS]
  by_cases h3 : tx.status_code = 300
  · by_cases hgt : (now - tx.status_changed_at).tdiv 60 > 5
    · simp [h3, hgt]
    · simp [h3, hgt]
  · by_cases h30 : tx.status_code = 305
    · by_cases hgt10 : (now - tx.status_changed_at).tdiv 60 > 10
      · simp [h3, h30, hgt10, hm10.mp hgt10]
      · simp [h3, h30, hgt10, ← hm10]
    · simp [h3, h30]

/-- Outside the two escalation windows `check_for_escalation` yields 0. -/
theorem check_eq_zero_of (now : Int) (tx : Transaction)
    (hA : ¬ (tx.status_code = 300 ∧ 360 ≤ now - tx.status_changed_at))
    (hB : ¬ (tx.status_code = 305 ∧ 660 ≤ now - tx.status_changed_at)) :
    check_for_escalation now tx = 0 := by
  have hm5 : ((now - tx.status_changed_at).tdiv 60 > 5) ↔
      360 ≤ now - tx.status_changed_at := by
    have h := tdiv_sixty_gt_iff (now - tx.status_changed_at) 5 (by norm_num)
    norm_num at h
    exact h
  have hm10 : ((now - tx.status_changed_at).tdiv 60 > 10) ↔
      660 ≤ now - tx.status_changed_at := by
    have h := tdiv_sixty_gt_iff (now - tx.status_changed_at) 10 (by norm_num)
    norm_num at h
    exact h
  simp only [check_for_escalation, get_elapsed_minutes, Status.FULFILLING,
    FORCE_CALL_PENDING, REROUTING, FORCE_CALL_THRESHOLD_MINS,
    REROUTE_THRESHOLD_MINS]
  by_cases h3 : tx.status_code = 300
  · have hgt : ¬ (now - tx.status_changed_at).tdiv 60 > 5 := by
      intro hg
      exact hA ⟨h3, hm5.mp hg⟩
    simp [h3, hgt]
  · by_cases h30 : tx.status_code = 305
    · have hgt10 : ¬ (now - tx.status_changed_at).tdiv 60 > 10 := by
        intro hg
        exact hB ⟨h30, hm10.mp hg⟩
      simp [h3, h30, hgt10]
    · simp [h3, h30]

end Kithly

namespace Kithly

/-- C4: `check_for_escalation` returns 305 exactly when the transaction is
at 300 (`FULFILLING`) and strictly more than 5 whole minutes have elapsed
(elapsed seconds at least 360); 315 exactly when it is at 305 and strictly
more than 10 whole minutes have elapsed (at least 660 seconds); 0 in every
other case; and on each firing, when `update_status` succeeds,
`process_escalation` advances the row and stamps `status_changed_at`. -/
theorem C4_escalation_ladder (now : Int) (tx : Transaction) (db : DB) :
    (check_for_escalation now tx = 305 ↔
       tx.status_code = 300 ∧ 360 ≤ now - tx.status_changed_at)
    ∧ (check_for_escalation now tx = 315 ↔
       tx.status_code = 305 ∧ 660 ≤ now - tx.status_changed_at)
    ∧ (¬ (tx.status_code = 300 ∧ 360 ≤ now - tx.status_changed_at) →
       ¬ (tx.status_code = 305 ∧ 660 ≤ now - tx.status_changed_at) →
       check_for_escalation now tx = 0)
    ∧ (tx.status_code = 300 → 360 ≤ now - tx.status_changed_at →
       (update_status db tx.tx_id 305).fst = true →
       process_escalation db now tx =
         (true, (update_status db tx.tx_id 305).snd,
          { tx with status_code := 305, status_changed_at := now }))
    ∧ (tx.status_code = 305 → 660 ≤ now - tx.status_changed_at →
       (update_status db tx.tx_id 315).fst = true →
       process_escalation db now tx =
         (true, (update_status db tx.tx_id 315).snd,
          { tx with status_code := 315, status_changed_at := now })) := by
  refine ⟨check_eq_305_iff now tx, check_eq_315_iff now tx,
    check_eq_zero_of now tx, ?_, ?_⟩
  · intro h3 h360 hup
    have hch : check_for_escalation now tx = 305 :=
      (check_eq_305_iff now tx).mpr ⟨h3, h360⟩
    simp only [process_escalation, hch]
    rw [if_neg (by decide)]
    rcases hu : update_status db tx.tx_id 305 with ⟨b, db1⟩
    rw [hu] at hup
    simp only at hup
    subst hup
    rfl
  · intro h30 h660 hup
    have hch : check_for_escalation now tx = 315 :=
      (check_eq_315_iff now tx).mpr ⟨h30, h660⟩
    simp only [process_escalation, hch]
    rw [if_neg (by decide)]
    rcases hu : update_status db tx.tx_id 315 with ⟨b, db1⟩
    rw [hu] at hup
    simp only at hup
    subst hup
    rfl

/-- C4 witness: a 300 row 400 seconds old escalates to 305 on one tick. -/
theorem C4_escalation_ladder_witness :
    process_escalation ⟨true, false, [⟨"T1", 300, 0⟩]⟩ 400 ⟨"T1", 300, 0, "S1"⟩ =
      (true, (update_status ⟨true, false, [⟨"T1", 300, 0⟩]⟩ "T1" 305).snd,
       ⟨"T1", 305, 400, "S1"⟩) :=
  (C4_escalation_ladder 400 ⟨"T1", 300, 0, "S1"⟩ ⟨true, false, [⟨"T1", 300, 0⟩]⟩).2.2.2.1
    rfl (by decide) (by decide)

/-- C2: `complete_delivery` returns `true` exactly when the ZRA result code
is `"000"` or `"001"` and the update to 400 succeeds; on any other code it
runs the update to 800 instead (putting the matched row at 800 when that
update succeeds) and returns `false`; and no row acquires status 400 unless
the code is in `{"000", "001"}`. -/
theorem C2_complete_delivery_interlock (db : DB) (tx : String) (zra : String) :
    ((complete_delivery db tx zra).fst = true ↔
       (zra = "000" ∨ zra = "001") ∧ (update_status db tx Status.COMPLETED).fst = true)
    ∧ (¬ (zra = "000" ∨ zra = "001") →
       complete_delivery db tx zra = (false, (update_status db tx HELD_FOR_REVIEW).snd))
    ∧ (¬ (zra = "000" ∨ zra = "001") →
       (update_status db tx HELD_FOR_REVIEW).fst = true →
       rowStatus (complete_delivery db tx zra).snd tx = some HELD_FOR_REVIEW)
    ∧ (∀ r1 ∈ (complete_delivery db tx zra).snd.rows, r1.status_code = Status.COMPLETED →
       (zra = "000" ∨ zra = "001") ∨
         ∃ r0 ∈ db.rows, r0.tx_id = r1.tx_id ∧ r0.status_code = Status.COMPLETED) := by
  have hcan : can_complete_delivery zra = true ↔ (zra = "000" ∨ zra = "001") := by
    simp [can_complete_delivery]
  by_cases hz : zra = "000" ∨ zra = "001"
  · have hct : can_complete_delivery zra = true := hcan.mpr hz
    refine ⟨?_, fun hn => absurd hz hn, fun hn => absurd hz hn,
      fun r1 _ _ => Or.inl hz⟩
    simp only [complete_delivery, hct]
    rcases hu : update_status db tx Status.COMPLETED with ⟨b, db1⟩
    cases b <;> simp [hz]
  · have hcf : can_complete_delivery zra = false := by
      cases hb : can_complete_delivery zra with
      | false => rfl
      | true => exact absurd (hcan.mp hb) hz
    have hred : complete_delivery db tx zra =
        (false, (update_status db tx HELD_FOR_REVIEW).snd) := by
      simp [complete_delivery, hcf]
    refine ⟨?_, fun _ => hred, fun _ hu8 => ?_, ?_⟩
    · rw [hred]
      simp [hz]
    · rw [hred]
      exact rowStatus_update_status_of_true db tx HELD_FOR_REVIEW hu8
    · intro r1 hr1 h400
      rw [hred] at hr1
      right
      rcases hb8 : (update_status db tx HELD_FOR_REVIEW).fst with _ | _
      · rw [update_status_snd_of_false db tx HELD_FOR_REVIEW hb8] at hr1
        exact ⟨r1, hr1, rfl, h400⟩
      · rw [update_status_snd_of_true db tx HELD_FOR_REVIEW hb8] at hr1
        rcases List.mem_map.mp hr1 with ⟨r0, hr0, hmap⟩
        by_cases hid : r0.tx_id = tx
        · exfalso
          rw [← hmap] at h400
          simp [hid, HELD_FOR_REVIEW, Status.COMPLETED] at h400
        · rw [← hmap]
          simp only [hid, if_false]
          exact ⟨r0, hr0, rfl, by rw [← hmap] at h400; simpa [hid] using h400⟩

/-- C2 witness: result code `"000"` on an existing row completes to 400. -/
theorem C2_complete_delivery_interlock_witness :
    (complete_delivery ⟨true, false, [⟨"T1", 350, 0⟩]⟩ "T1" "000").fst = true :=
  (C2_complete_delivery_interlock ⟨true, false, [⟨"T1", 350, 0⟩]⟩ "T1" "000").1.mpr
    ⟨Or.inl rfl, by decide⟩

/-- C5: `process_expired_escrow` returns `true` exactly when the transaction
is at 200, the clock is strictly past `expiry_timestamp`, and the update to
900 succeeds; it then marks the transaction 900 and emits the refund
trigger carrying the stored Stripe payment reference; in every other case
it returns `false` and leaves the database, the transaction and the refund
channel untouched. -/
theorem C5_process_expired_escrow_spec (db : DB) (now : Int) (tx : EscrowTransaction) :
    ((process_expired_escrow db now tx).fst = true ↔
       tx.status_code = 200 ∧ tx.expiry_timestamp < now ∧
         (update_status db tx.tx_id 900).fst = true)
    ∧ ((process_expired_escrow db now tx).fst = true →
       process_expired_escrow db now tx =
         (true, (update_status db tx.tx_id 900).snd,
          { tx with status_code := 900 }, some (tx.tx_id, tx.stripe_payment_ref)))
    ∧ ((process_expired_escrow db now tx).fst = false →
       process_expired_escrow db now tx = (false, db, tx, none)) := by
  have hexp : is_escrow_expired now tx = true ↔
      (tx.status_code = 200 ∧ tx.expiry_timestamp < now) := by
    by_cases h2 : tx.status_code = 200 <;>
      simp [is_escrow_expired, Status.FUNDS_LOCKED, h2]
  by_cases he : is_escrow_expired now tx = true
  · rcases hexp.mp he with ⟨h200, hlt⟩
    simp only [process_expired_escrow, he]
    rcases hu : update_status db tx.tx_id EXPIRED with ⟨b, db1⟩
    cases b
    · have hfail : (update_status db tx.tx_id 900).fst = false := by
        rw [show (900 : Int) = EXPIRED from rfl, hu]
      have hdb : db1 = db := by
        have := update_status_snd_of_false db tx.tx_id EXPIRED (by rw [hu])
        rw [hu] at this
        exact this
      simp [h200, hlt, hfail, hdb]
    · have hok : (update_status db tx.tx_id 900).fst = true := by
        rw [show (900 : Int) = EXPIRED from rfl, hu]
      have hdb : (update_status db tx.tx_id 900).snd = db1 := by
        rw [show (900 : Int) = EXPIRED from rfl, hu]
      simp [h200, hlt, hok, hdb, EXPIRED]
  · have hef : is_escrow_expired now tx = false := by
      cases hb : is_escrow_expired now tx with
      | false => rfl
      | true => exact absurd hb he
    have hnot : ¬ (tx.status_code = 200 ∧ tx.expiry_timestamp < now) := by
      intro hcon
      exact he (hexp.mpr hcon)
    simp only [process_expired_escrow, hef]
    refine ⟨?_, ?_, fun _ => rfl⟩
    · simp
      intro h200 hlt
      exact absurd ⟨h200, hlt⟩ hnot
    · simp

/-- C5 witness: a 200 row whose deadline has passed expires to 900 and
emits the refund trigger with the stored payment reference. -/
theorem C5_process_expired_escrow_spec_witness :
    (process_expired_escrow ⟨true, false, [⟨"T1", 200, 3⟩]⟩ 10
      ⟨"T1", 200, 0, "tok", "pay_1", true⟩).fst = true :=
  (C5_process_expired_escrow_spec ⟨true, false, [⟨"T1", 200, 3⟩]⟩ 10
      ⟨"T1", 200, 0, "tok", "pay_1", true⟩).1.mpr ⟨rfl, by decide, by decide⟩

end Kithly

namespace Kithly

/-- Every RNG draw selects a character of the 32-character alphabet. -/
theorem tokenChar_mem (i : Fin 32) : tokenChar i ∈ charset :=
  List.get_mem charset _ _

/-- No character of the alphabet is one of the four confusable glyphs. -/
theorem tokenChar_not_confusable (i : Fin 32) :
    tokenChar i ∉ (['O', '0', 'I', '1'] : List Char) := by
  revert i
  decide

/-- C9: every generated handshake token is nine characters long, carries a
hyphen at index 4, draws every other character from the alphabet
`ABCDEFGHJKLMNPQRSTUVWXYZ23456789`, and never contains `O`, `0`, `I` or
`1`. -/
theorem C9_token_shape (r : Fin 8 → Fin 32) :
    (generate_handshake_token r).length = 9
    ∧ (generate_handshake_token r).data.get? 4 = some '-'
    ∧ (∀ i : Fin 9, i.val ≠ 4 →
        ∀ h2 : i.val < (generate_handshake_token r).data.length,
        (generate_handshake_token r).data.get ⟨i.val, h2⟩ ∈ charset)
    ∧ (∀ c ∈ (generate_handshake_token r).data, c ∉ (['O', '0', 'I', '1'] : List Char)) := by
  refine ⟨rfl, rfl, ?_, ?_⟩
  · intro i hne h2
    fin_cases i
    · exact tokenChar_mem (r 0)
    · exact tokenChar_mem (r 1)
    · exact tokenChar_mem (r 2)
    · exact tokenChar_mem (r 3)
    · exact absurd rfl hne
    · exact tokenChar_mem (r 4)
    · exact tokenChar_mem (r 5)
    · exact tokenChar_mem (r 6)
    · exact tokenChar_mem (r 7)
  · intro c hc
    simp only [generate_handshake_token, List.mem_cons, List.not_mem_nil,
      or_false] at hc
    rcases hc with rfl | rfl | rfl | rfl | rfl | rfl | rfl | rfl | rfl
    · exact tokenChar_not_confusable (r 0)
    · exact tokenChar_not_confusable (r 1)
    · exact tokenChar_not_confusable (r 2)
    · exact tokenChar_not_confusable (r 3)
    · decide
    · exact tokenChar_not_confusable (r 4)
    · exact tokenChar_not_confusable (r 5)
    · exact tokenChar_not_confusable (r 6)
    · exact tokenChar_not_confusable (r 7)

/-- C9 witness: the theorem applied to the constant-zero draw oracle. -/
theorem C9_token_shape_witness :
    (generate_handshake_token (fun _ => 0)).length = 9 :=
  (C9_token_shape (fun _ => 0)).1

end Kithly

namespace kithly
namespace idempotency

/-- Erasing a key from an association list makes lookup of that key fail. -/
theorem lookup_filter_ne {β : Type} (l : List (String × β)) (key : String) :
    (l.filter (fun p => p.fst ≠ key)).lookup key = none := by
  induction l with
  | nil => rfl
  | cons a t ih =>
    by_cases h : a.fst = key
    · simp only [List.filter_cons, h]
      simpa using ih
    · have hb : (key == a.fst) = false := by
        simpa using (Ne.symm h)
      have hd : (decide (a.fst ≠ key)) = true := by simp [h]
      simp only [List.filter_cons, ne_eq, hd, if_true]
      simpa [List.lookup, hb] using ih

/-- `check` touches only the cache, never the reservation map. -/
theorem check_preserves_reservations (now : Int)
    (repo : String → Except String (Option GiftTransaction))
    (st : GuardState) (key : String) :
    (check now repo st key).snd.reservations = st.reservations := by
  simp only [check]
  cases hl : st.cache.lookup key with
  | none =>
    cases hr : repo key with
    | error e => simp [hr]
    | ok o =>
      cases o with
      | none => simp [hr]
      | some tx => simp [hr, cache_transaction]
  | some e =>
    by_cases hf : now - e.cached_at < CACHE_TTL
    · simp [hf]
    · simp only [hf, if_false]
      cases hr : repo key with
      | error e2 => simp [hr]
      | ok o =>
        cases o with
        | none => simp [hr]
        | some tx => simp [hr, cache_transaction]

/-- C3: whenever a transaction for the idempotency key already exists — a
non-stale cache entry, or a row found by `find_by_idempotency_key` —
`with_idempotency` returns that existing snapshot, and its entire outcome
is independent of the creator callback (the creator is never consulted), so
no second row and no second `escrow_locked` event can arise. -/
theorem C3_with_idempotency_duplicate (now : Int)
    (repo : String → Except String (Option GiftTransaction))
    (st : GuardState) (key : String) (tx : GiftTransaction)
    (h : (∃ e, st.cache.lookup key = some e ∧ now - e.cached_at < CACHE_TTL ∧
            e.transaction = tx)
       ∨ ((∀ e, st.cache.lookup key = some e → ¬ (now - e.cached_at < CACHE_TTL))
          ∧ repo key = Except.ok (some tx))) :
    (∀ c1 c2 : CreatorOutcome,
        with_idempotency now repo st key c1 = with_idempotency now repo st key c2)
    ∧ (∀ c : CreatorOutcome,
        (with_idempotency now repo st key c).fst = Except.ok tx) := by
  have hcheck : ∃ st1, check now repo st key = (Except.ok ⟨true, some tx⟩, st1) := by
    rcases h with ⟨e, hl, hfresh, htx⟩ | ⟨hstale, hrepo⟩
    · exact ⟨st, by simp [check, hl, hfresh, htx]⟩
    · cases hl : st.cache.lookup key with
      | none =>
        refine ⟨cache_transaction st key tx now, ?_⟩
        simp [check, hl, hrepo]
      | some e =>
        have hst := hstale e hl
        refine ⟨cache_transaction st key tx now, ?_⟩
        simp [check, hl, hst, hrepo]
  obtain ⟨st1, hc⟩ := hcheck
  have hall : ∀ c : CreatorOutcome,
      with_idempotency now repo st key c = (Except.ok tx, st1) := by
    intro c
    simp [with_idempotency, hc]
  exact ⟨fun c1 c2 => (hall c1).trans (hall c2).symm, fun c => by rw [hall c]⟩

/-- C3 witness: a fresh cache hit short-circuits creation — the creator that
would insert a different row is ignored and the cached snapshot returned. -/
theorem C3_with_idempotency_duplicate_witness :
    (with_idempotency 10 (fun _ => Except.ok none)
        ⟨[("K", ⟨⟨"T9", 100⟩, 0⟩)], []⟩ "K" (CreatorOutcome.ok ⟨"BAD", 0⟩)).fst
      = Except.ok ⟨"T9", 100⟩ :=
  (C3_with_idempotency_duplicate 10 (fun _ => Except.ok none)
      ⟨[("K", ⟨⟨"T9", 100⟩, 0⟩)], []⟩ "K" ⟨"T9", 100⟩
      (Or.inl ⟨⟨⟨"T9", 100⟩, 0⟩, by decide, by decide, rfl⟩)).2
    (CreatorOutcome.ok ⟨"BAD", 0⟩)

end idempotency
end kithly

namespace kithly
namespace idempotency

/-- C7 counterexample: a reservation for `"K"` taken at instant 0 is 31
seconds old — strictly past `RESERVATION_TTL` — yet `reserve` still fails,
because the existence check runs before any garbage collection; this
refutes the claim that an expired entry does not block admission. -/
theorem C7_counterexample_stale_entry_blocks :
    ¬ spec_reserve_admits_expired := by
  intro h
  obtain ⟨st1, he⟩ := h 31 ⟨[], [("K", 0)]⟩ "K" (by
    intro t ht
    have ht0 : (0 : Int) = t := by simpa [List.lookup] using ht
    rw [← ht0]
    decide)
  have hr : reserve 31 ⟨[], [("K", 0)]⟩ "K" =
      (Except.error "Key already reserved - concurrent request in progress",
       ⟨[], [("K", 0)]⟩) := by
    simp [reserve, List.lookup]
  rw [hr] at he
  simp at he

/-- C7 (amended): `reserve(key)` fails exactly when a reservation entry for
the key exists, regardless of its age; on admission the key is recorded
with the current instant (and survives the garbage collection that then
removes every entry strictly older than 30 seconds). -/
theorem C7_reserve_blocks_any_entry (now : Int) (st : GuardState) (key : String) :
    ((st.reservations.lookup key).isSome = true →
       reserve now st key =
         (Except.error "Key already reserved - concurrent request in progress", st))
    ∧ (st.reservations.lookup key = none →
       reserve now st key =
         (Except.ok true,
          { st with reservations :=
              cleanup_expired_reservations now ((key, now) :: st.reservations) })
       ∧ (reserve now st key).snd.reservations.lookup key = some now) := by
  constructor
  · intro hs
    simp [reserve, hs]
  · intro hn
    have hr : reserve now st key =
        (Except.ok true,
         { st with reservations :=
             cleanup_expired_reservations now ((key, now) :: st.reservations) }) := by
      simp [reserve, hn]
    refine ⟨hr, ?_⟩
    rw [hr]
    have hkeep : (decide (now - ((key, now) : String × Int).snd ≤ RESERVATION_TTL)) = true := by
      simp [RESERVATION_TTL]
    simp [cleanup_expired_reservations, List.filter_cons, hkeep, List.lookup]

/-- C7 witness (amended claim): admission on an empty reservation map
records the key at the current instant. -/
theorem C7_reserve_blocks_any_entry_witness :
    (reserve 5 ⟨[], []⟩ "K").snd.reservations.lookup "K" = some 5 :=
  ((C7_reserve_blocks_any_entry 5 ⟨[], []⟩ "K").2 rfl).2

/-- C8: whatever the creator does — succeed, return a failed `Result`, or
throw — a key that was not already reserved on entry is never left reserved
when `with_idempotency` returns: `commit` erases it on success and the
scoped guard's `release` erases it on both failure paths. -/
theorem C8_no_reservation_leak (now : Int)
    (repo : String → Except String (Option GiftTransaction))
    (st : GuardState) (key : String) (creator : CreatorOutcome)
    (h : st.reservations.lookup key = none) :
    (with_idempotency now repo st key creator).snd.reservations.lookup key = none := by
  rcases hc : check now repo st key with ⟨res, st1⟩
  have hst1 : st1.reservations = st.reservations := by
    have hck := check_preserves_reservations now repo st key
    rw [hc] at hck
    exact hck
  cases res with
  | error e => simp [with_idempotency, hc, hst1, h]
  | ok cr =>
    cases hd : cr.is_duplicate with
    | true => simp [with_idempotency, hc, hd, hst1, h]
    | false =>
      have hres : reserve now st1 key =
          (Except.ok true,
           { st1 with reservations :=
               cleanup_expired_reservations now ((key, now) :: st1.reservations) }) := by
        simp [reserve, hst1, h]
      cases creator with
      | ok tx =>
        simp [with_idempotency, hc, hd, hres, commit, release, cache_transaction,
          lookup_filter_ne]
        exact fun a b _ hne heq => hne heq.symm
      | err e =>
        simp [with_idempotency, hc, hd, hres, release, lookup_filter_ne]
        exact fun a b _ hne heq => hne heq.symm
      | exn e =>
        simp [with_idempotency, hc, hd, hres, release, lookup_filter_ne]
        exact fun a b _ hne heq => hne heq.symm

/-- C8 witness: a creator that fails leaves no reservation behind. -/
theorem C8_no_reservation_leak_witness :
    (with_idempotency 0 (fun _ => Except.ok none) ⟨[], []⟩ "K"
        (CreatorOutcome.err "boom")).snd.reservations.lookup "K" = none :=
  C8_no_reservation_leak 0 (fun _ => Except.ok none) ⟨[], []⟩ "K"
    (CreatorOutcome.err "boom") rfl

end idempotency
end kithly

namespace kithly
namespace engine

/-- `rankedBefore` unfolded to its ordering proposition. -/
theorem rankedBefore_iff (a b : ShopRow) :
    rankedBefore a b = true ↔
      (b.performance_score < a.performance_score ∨
       (a.performance_score = b.performance_score ∧ a.distance_km < b.distance_km)) := by
  simp [rankedBefore, Bool.or_eq_true, Bool.and_eq_true, decide_eq_true_eq,
    beq_iff_eq]

/-- The SQL ranking is transitive. -/
theorem rankedBefore_trans {a b c : ShopRow}
    (h1 : rankedBefore a b = true) (h2 : rankedBefore b c = true) :
    rankedBefore a c = true := by
  rw [rankedBefore_iff] at h1 h2 ⊢
  rcases h1 with h1 | ⟨h1e, h1d⟩ <;> rcases h2 with h2 | ⟨h2e, h2d⟩
  · exact Or.inl (lt_trans h2 h1)
  · exact Or.inl (by linarith)
  · exact Or.inl (by linarith)
  · exact Or.inr ⟨h1e.trans h2e, lt_trans h1d h2d⟩

/-- The SQL ranking is a strict weak order: a strict comparison passes
through any middle row. -/
theorem rankedBefore_negtrans {a b c : ShopRow}
    (h : rankedBefore a c = true) :
    rankedBefore a b = true ∨ rankedBefore b c = true := by
  rw [rankedBefore_iff] at h
  rw [rankedBefore_iff, rankedBefore_iff]
  rcases h with h | ⟨he, hd⟩
  · rcases lt_trichotomy b.performance_score a.performance_score with hb | hb | hb
    · exact Or.inl (Or.inl hb)
    · exact Or.inr (Or.inl (by linarith))
    · exact Or.inr (Or.inl (by linarith))
  · rcases lt_trichotomy b.performance_score a.performance_score with hb | hb | hb
    · exact Or.inl (Or.inl hb)
    · rcases lt_or_le a.distance_km b.distance_km with hdd | hdd
      · exact Or.inl (Or.inr ⟨hb.symm, hdd⟩)
      · exact Or.inr (Or.inr ⟨hb.trans he, by linarith⟩)
    · exact Or.inr (Or.inl (by linarith))

/-- No row is ranked strictly before itself. -/
theorem rankedBefore_irrefl (a : ShopRow) : rankedBefore a a = false := by
  simp [rankedBefore]

/-- Invariant of the `LIMIT 1` fold: starting from `some b`, the fold lands
on a row drawn from `b` or the remaining list that nothing seen is ranked
strictly before. -/
theorem sqlBest_go (l : List ShopRow) (b : ShopRow) :
    ∃ s, l.foldl sqlStep (some b) = some s ∧ (s = b ∨ s ∈ l)
      ∧ rankedBefore b s = false
      ∧ ∀ t ∈ l, rankedBefore t s = false := by
  induction l generalizing b with
  | nil => exact ⟨b, rfl, Or.inl rfl, rankedBefore_irrefl b, by simp⟩
  | cons a t ih =>
    cases hab : rankedBefore a b with
    | true =>
      obtain ⟨s, hf, hm, hbs, hall⟩ := ih a
      refine ⟨s, ?_, ?_, ?_, ?_⟩
      · simpa [List.foldl_cons, sqlStep, hab] using hf
      · rcases hm with rfl | hmem
        · exact Or.inr (List.mem_cons_self _ _)
        · exact Or.inr (List.mem_cons_of_mem a hmem)
      · cases hbs2 : rankedBefore b s with
        | false => rfl
        | true =>
          exfalso
          have habs : rankedBefore a s = true := rankedBefore_trans hab hbs2
          rw [habs] at hbs
          exact Bool.noConfusion hbs
      · intro u hu
        rcases List.mem_cons.mp hu with rfl | hut
        · exact hbs
        · exact hall u hut
    | false =>
      obtain ⟨s, hf, hm, hbs, hall⟩ := ih b
      refine ⟨s, ?_, ?_, hbs, ?_⟩
      · simpa [List.foldl_cons, sqlStep, hab] using hf
      · rcases hm with rfl | hmem
        · exact Or.inl rfl
        · exact Or.inr (List.mem_cons_of_mem a hmem)
      · intro u hu
        rcases List.mem_cons.mp hu with rfl | hut
        · cases has : rankedBefore u s with
          | false => rfl
          | true =>
            exfalso
            rcases rankedBefore_negtrans (b := b) has with h1 | h2
            · rw [h1] at hab
              exact Bool.noConfusion hab
            · rw [h2] at hbs
              exact Bool.noConfusion hbs
        · exact hall u hut

/-- On a non-empty candidate list, `sqlBest` returns a member no candidate
is ranked strictly before. -/
theorem sqlBest_spec (l : List ShopRow) (h : l ≠ []) :
    ∃ s, sqlBest l = some s ∧ s ∈ l ∧ ∀ t ∈ l, rankedBefore t s = false := by
  cases l with
  | nil => exact absurd rfl h
  | cons a t =>
    obtain ⟨s, hf, hm, hbs, hall⟩ := sqlBest_go t a
    refine ⟨s, ?_, ?_, ?_⟩
    · simpa [sqlBest, List.foldl_cons, sqlStep] using hf
    · rcases hm with rfl | hmem
      · exact List.mem_cons_self _ _
      · exact List.mem_cons_of_mem a hmem
    · intro u hu
      rcases List.mem_cons.mp hu with rfl | hut
      · exact hbs
      · exact hall u hut

end engine
end kithly

namespace kithly
namespace engine

/-- C6 (amended): for every declined auto-reroute order with at least one
approved, verified same-category candidate (other than the declining shop)
within 5 km, the engine selects a candidate maximal under
(`performance_score` desc, distance asc), reports it with
`distance_diff_km = new_distance − original_distance`, and
`update_order_reroute` then sets every matched row to status 106 with the
alternative shop id and the diff rendered by `std::to_string` — sign
prefix, six decimals and a `km` suffix — not with one decimal. -/
theorem C6_reroute_selects_best (shops : List ShopRow) (order : Order)
    (orig : ℚ) (tbl : List OrderRow)
    (h910 : order.status_code = 910) (har : order.auto_reroute = true)
    (hcand : shops.filter (candidate order) ≠ []) :
    ∃ s, s ∈ shops.filter (candidate order)
      ∧ (∀ t ∈ shops.filter (candidate order),
          t.performance_score ≤ s.performance_score ∧
            (t.performance_score = s.performance_score →
              s.distance_km ≤ t.distance_km))
      ∧ find_alternative shops order orig =
          ⟨true, s.shop_id, s.name, s.distance_km - orig⟩
      ∧ update_order_reroute tbl order.tx_id (find_alternative shops order orig) =
          tbl.map (fun r =>
            if r.tx_id == order.tx_id then
              { r with
                status_code := 106,
                alternative_shop_id := s.shop_id,
                re_route_distance_diff := format_distance_diff (s.distance_km - orig) }
            else r) := by
  obtain ⟨s, hbest, hmem, hall⟩ := sqlBest_spec _ hcand
  have hfa : find_alternative shops order orig =
      ⟨true, s.shop_id, s.name, s.distance_km - orig⟩ := by
    simp [find_alternative, hbest]
  refine ⟨s, hmem, ?_, hfa, ?_⟩
  · intro u hu
    have hu0 := hall u hu
    have hnot : ¬ (s.performance_score < u.performance_score ∨
        (u.performance_score = s.performance_score ∧
          u.distance_km < s.distance_km)) := by
      rw [← rankedBefore_iff]
      simp [hu0]
    push_neg at hnot
    exact hnot
  · rw [hfa]
    rfl

/-- Evaluation of the proximity filter on the fixture: the 6.1 km shop is
out of radius, the two nearer shops qualify. -/
theorem fixture_filter :
    [S2row, S3row, S4row].filter (candidate exOrder) = [S2row, S3row] := by
  simp only [List.filter, candidate, exOrder, S2row, S3row, S4row, SEARCH_RADIUS_M]
  norm_num
  rfl

/-- Evaluation of the ranked selection on the fixture: score 0.95 beats
0.9, so the 3.4 km shop S3 wins. -/
theorem fixture_best : sqlBest [S2row, S3row] = some S3row := by
  simp only [sqlBest, List.foldl, sqlStep, rankedBefore, S2row, S3row]
  norm_num

/-- Evaluation of `find_alternative` on the fixture: S3 at 3.4 km against
an original distance of 2.5 km gives a diff of 0.9 km. -/
theorem fixture_find :
    find_alternative [S2row, S3row, S4row] exOrder (25/10) =
      ⟨true, "S3", "Shop Three", 9/10⟩ := by
  simp only [find_alternative]
  rw [fixture_filter, fixture_best]
  simp only [S3row]
  norm_num

/-- `std::to_string` renders the 0.9 km diff with six decimals. -/
theorem format_distance_diff_nine_tenths :
    format_distance_diff (9/10) = "+0.900000km" := by
  have hr6 : round (((9:ℚ)/10) * 1000000) = 900000 := by norm_num [round_eq]
  have hge : (0:ℚ) ≤ 9/10 := by norm_num
  have hnlt : ¬ ((9:ℚ)/10 < 0) := by norm_num
  simp only [format_distance_diff, to_string_double, fixed6, hr6, if_neg hnlt,
    if_pos hge]
  rfl

/-- The spec's one-decimal rendering of the same diff. -/
theorem spec_one_decimal_diff_nine_tenths :
    spec_one_decimal_diff (9/10) = "+0.9km" := by
  have habs : |(9:ℚ)/10| = 9/10 := abs_of_nonneg (by norm_num)
  have hr1 : round (((9:ℚ)/10) * 10) = 9 := by norm_num [round_eq]
  have hge : (0:ℚ) ≤ 9/10 := by norm_num
  simp only [spec_one_decimal_diff, habs, hr1, if_pos hge]
  rfl

/-- C6 witness (amended claim): on the fixture the search succeeds. -/
theorem C6_reroute_selects_best_witness :
    (find_alternative [S2row, S3row, S4row] exOrder (25/10)).found = true := by
  obtain ⟨s, _, _, hfa, _⟩ :=
    C6_reroute_selects_best [S2row, S3row, S4row] exOrder (25/10)
      [⟨"T1", 910, "", ""⟩] rfl rfl
      (by rw [fixture_filter]; exact List.cons_ne_nil _ _)
  rw [hfa]

/-- C6 counterexample: on the fixture the row is updated with
`re_route_distance_diff = "+0.900000km"` (six decimals from
`std::to_string`), not the claimed one-decimal `"+0.9km"`. -/
theorem C6_counterexample_six_decimals : ¬ spec_reroute_one_decimal := by
  intro h
  obtain ⟨hfound, heq⟩ := h [S2row, S3row, S4row] exOrder (25/10)
    [⟨"T1", 910, "", ""⟩]
    ⟨S2row, by simp, by
      simp only [candidate, S2row, exOrder, SEARCH_RADIUS_M]
      norm_num
      decide⟩
    rfl rfl
  rw [fixture_find] at heq
  have hl : update_order_reroute [⟨"T1", 910, "", ""⟩] exOrder.tx_id
      ⟨true, "S3", "Shop Three", 9/10⟩ =
      [⟨"T1", 106, "S3", format_distance_diff (9/10)⟩] := by
    simp [update_order_reroute, exOrder]
  rw [hl] at heq
  simp only [exOrder, List.map] at heq
  rw [show (("T1" == "T1") : Bool) = true from rfl] at heq
  simp only [if_true] at heq
  have hstr := congrArg OrderRow.re_route_distance_diff
    (List.head_eq_of_cons_eq heq)
  rw [format_distance_diff_nine_tenths, spec_one_decimal_diff_nine_tenths] at hstr
  exact absurd hstr (by decide)

end engine
end kithly

